import Mathlib

/-!
Verification of the bugtracker calibration-gated masking pipeline.

Shallow embedding of `src/bugtracker/io/models.py` and
`src/bugtracker/io/processor.py`.  Arrays are modelled as a flat list of
rationals together with an explicit shape (for the writer, where ranks vary),
or as total functions from indices (for the processor, where only point reads
and point writes occur).  Python exceptions are modelled by an error type, and
methods that raise are embedded as `Except`-valued functions.
-/

deriving instance DecidableEq for Except

set_option allowUnsafeReducibility true in
attribute [semireducible] Rat.mul Rat.inv Rat.add Rat.sub Rat.neg Rat.div Rat.blt

set_option maxRecDepth 16000

/-- Python exception classes that the embedded code can raise. -/
inductive PyErr where
  | valueError (msg : String)
  | typeError (msg : String)
  | indexError (msg : String)
  | attributeError (msg : String)
  | notImplementedError (msg : String)
  deriving DecidableEq

/-- An n-dimensional numpy array: its shape tuple and its flattened data. -/
structure NDArray where
  shape : List Nat
  data : List Rat
  deriving DecidableEq

/-- Python `str` of a shape tuple, e.g. `(3, 4, 4)`; a 1-tuple prints as `(4,)`. -/
def pyTupleStr (s : List Nat) : String :=
  match s with
  | [x] => "(" ++ toString x ++ ",)"
  | _ => "(" ++ String.intercalate ", " (s.map toString) ++ ")"

/-- The polar grid geometry (`grid_info` in the source). -/
structure GridInfo where
  azims : Nat
  gates : Nat
  deriving DecidableEq

/-- Radar metadata consumed by `BaseOutput.write_metadata`.  The scan datetime
is kept as its calendar components; `strftime` is modelled explicitly. -/
structure Metadata where
  lat : Rat
  lon : Rat
  radar_id : String
  scan_year : Nat
  scan_month : Nat
  scan_day : Nat
  scan_hour : Nat
  scan_minute : Nat
  name : String
  deriving DecidableEq

/-- Zero-pad a number to a fixed width, as `strftime` does. -/
def padNum (width n : Nat) : String :=
  let s := toString n
  String.mk (List.replicate (width - s.length) '0') ++ s

/-- `scan_dt.strftime("%Y%m%d%H%M")`. -/
def strftime_YmdHM (m : Metadata) : String :=
  padNum 4 m.scan_year ++ padNum 2 m.scan_month ++ padNum 2 m.scan_day ++
    padNum 2 m.scan_hour ++ padNum 2 m.scan_minute

/-- One netCDF variable: the dimension names it was declared over and its data. -/
structure NCVar where
  dims : List String
  data : List Rat
  deriving DecidableEq

/-- A netCDF dataset: the six top-level attributes set by `write_metadata`,
the declared dimensions, and the variables. -/
structure NCFile where
  latitude : Option Rat := none
  longitude : Option Rat := none
  radar_id : Option String := none
  datetime : Option String := none
  name : Option String := none
  filetype : Option String := none
  dims : List (String × Nat) := []
  vars : List (String × NCVar) := []
  deriving DecidableEq

/-- The netCDF default fill value for doubles (9.969209968386869e36): a freshly
created variable holds this value until it is assigned. -/
def ncFillDouble : Rat := 9969209968386869 * 10 ^ 21

def NCFile.dimLen (f : NCFile) (d : String) : Nat :=
  (((f.dims.find? (fun p => p.1 = d)).map Prod.snd).getD 0)

def NCFile.createDimension (f : NCFile) (d : String) (n : Nat) : NCFile :=
  { f with dims := f.dims ++ [(d, n)] }

/-- `dset.createVariable`: the new variable is initialised with fill values. -/
def NCFile.createVariable (f : NCFile) (v : String) (ds : List String) : NCFile :=
  let size := (ds.map f.dimLen).foldl (fun a b => a * b) 1
  { f with vars := f.vars ++ [(v, { dims := ds, data := List.replicate size ncFillDouble })] }

/-- Slice assignment `var[...] = xs` into the file's variable `v`. -/
def NCFile.setVar (f : NCFile) (v : String) (xs : List Rat) : NCFile :=
  { f with vars := f.vars.map (fun p => if p.1 = v then (p.1, { p.2 with data := xs }) else p) }

/-- Read variable `v` back from the file (its flattened data). -/
def NCFile.getVar (f : NCFile) (v : String) : Option (List Rat) :=
  (f.vars.find? (fun p => p.1 = v)).map (fun p => p.2.data)

/-- The fields of a `BaseOutput` instance at the time `write`/`validate` runs.
The dbz arrays and the joint product are `Option` because the attributes hold
Python `None` until populated. -/
structure BaseOutputState where
  metadata : Metadata
  grid_info : GridInfo
  radar_filetype : String
  dbz_elevs : List Rat
  dbz_filtered : Option NDArray
  dbz_unfiltered : Option NDArray
  joint_product : Option NDArray

/-- `BaseOutput.write_metadata`: sets the six top-level attributes. -/
def write_metadata (st : BaseOutputState) (dset : NCFile) : NCFile :=
  { dset with
    latitude := some st.metadata.lat
    longitude := some st.metadata.lon
    radar_id := some st.metadata.radar_id
    datetime := some (strftime_YmdHM st.metadata)
    name := some st.metadata.name
    filetype := some st.radar_filetype }

/-- Result of one call to a writer method on a fresh target path: the raised
exception (if any) and the file left at the path (`none` = the call never
created the file). -/
structure WriteOutcome where
  error : Option PyErr
  fileAfter : Option NCFile
  deriving DecidableEq

/-- `BaseOutput.write`.  `nc.Dataset(filename, mode="w")` creates the file at
once, so any later failure leaves a partial file behind.  Numpy slice
assignment of a wrongly shaped source is modelled as a broadcast error
(conservatively: success exactly when the shapes agree).  The final source line
`nc_dbz_joint = self.joint_product[:,:]` rebinds the Python local name instead
of assigning into the variable, so the file's "dbz_joint" variable is never
assigned; only the presence of `joint_product` (read on that line) matters. -/
def BaseOutput.write (st : BaseOutputState) : WriteOutcome :=
  let dset := write_metadata st ({} : NCFile)
  let azims := st.grid_info.azims
  let gates := st.grid_info.gates
  let num_dbz_elevs := st.dbz_elevs.length
  let dset := dset.createDimension "dbz_elevs" num_dbz_elevs
  let dset := dset.createDimension "azims" azims
  let dset := dset.createDimension "gates" gates
  let dset := dset.createVariable "dbz_elevs" ["dbz_elevs"]
  let dset := dset.createVariable "dbz_filtered" ["dbz_elevs", "azims", "gates"]
  let dset := dset.createVariable "dbz_unfiltered" ["dbz_elevs", "azims", "gates"]
  let dset := dset.createVariable "dbz_joint" ["azims", "gates"]
  let dset := dset.setVar "dbz_elevs" st.dbz_elevs
  match st.dbz_filtered with
  | none => { error := some (.typeError "NoneType object is not subscriptable"), fileAfter := some dset }
  | some filt =>
    if filt.shape = [num_dbz_elevs, azims, gates] then
      let dset := dset.setVar "dbz_filtered" filt.data
      match st.dbz_unfiltered with
      | none => { error := some (.typeError "NoneType object is not subscriptable"), fileAfter := some dset }
      | some unfilt =>
        if unfilt.shape = [num_dbz_elevs, azims, gates] then
          let dset := dset.setVar "dbz_unfiltered" unfilt.data
          match st.joint_product with
          | none => { error := some (.typeError "NoneType object is not subscriptable"), fileAfter := some dset }
          | some _ => { error := none, fileAfter := some dset }
        else { error := some (.valueError "could not broadcast input array"), fileAfter := some dset }
    else { error := some (.valueError "could not broadcast input array"), fileAfter := some dset }

/-- `BaseOutput.validate`.  Reading `shape[1]`/`shape[2]` of an array with
fewer than three axes raises `IndexError` in Python, before any dimension
comparison; this is modelled by a rank guard placed where those reads occur. -/
def BaseOutput.validate (st : BaseOutputState) : Except PyErr Unit :=
  match st.dbz_filtered with
  | none => .error (.valueError "dbz_filtered array cannot be null.")
  | some filt =>
    match st.dbz_unfiltered with
    | none => .error (.valueError "dbz_unfiltered array cannot be null.")
    | some unfilt =>
      if filt.shape ≠ unfilt.shape then
        .error (.valueError "dbz grids must have the same dimension.")
      else
        let azims := st.grid_info.azims
        let gates := st.grid_info.gates
        if filt.shape.length < 3 then .error (.indexError "tuple index out of range")
        else
          let dbz_azims := filt.shape.getD 1 0
          let dbz_gates := filt.shape.getD 2 0
          if dbz_azims ≠ azims then
            .error (.valueError ("Incompatible azims: " ++ toString dbz_azims ++ " != " ++ toString azims))
          else if dbz_gates ≠ gates then
            .error (.valueError ("Incompatible gates: " ++ toString dbz_gates ++ " != " ++ toString gates))
          else
            match st.joint_product with
            | none => .error (.valueError "joint_product cannot be null.")
            | some jp =>
              if jp.shape.length ≠ 2 then
                .error (.valueError "joint_product must be a 2D array.")
              else
                let j0 := jp.shape.getD 0 0
                let j1 := jp.shape.getD 1 0
                if azims ≠ j0 ∨ gates ≠ j1 then
                  .error (.valueError ("Incompatible dims for joint_product: " ++ toString j0 ++ "," ++ toString j1))
                else .ok ()

/-- The fields of an `IrisOutput` instance: the base fields plus the
Doppler-family auxiliary volumes set by `populate` (`None` before that). -/
structure IrisOutputState where
  base : BaseOutputState
  dop_elevs : List Rat
  velocity : Option NDArray
  spectrum_width : Option NDArray
  total_power : Option NDArray

/-- `IrisOutput.validate`: the base checks, then the mutual shape equality of
the three auxiliary volumes.  Reading `.shape` of `None` raises
`AttributeError`.  The second mismatch message reuses `spectrum_shape` even
though it compares against `total_power`, as the source does. -/
def IrisOutput.validate (st : IrisOutputState) : Except PyErr Unit :=
  match BaseOutput.validate st.base with
  | .error e => .error e
  | .ok () =>
  match st.velocity with
  | none => .error (.attributeError "NoneType object has no attribute shape")
  | some v =>
    match st.spectrum_width with
    | none => .error (.attributeError "NoneType object has no attribute shape")
    | some s =>
      match st.total_power with
      | none => .error (.attributeError "NoneType object has no attribute shape")
      | some p =>
        let vs := pyTupleStr v.shape
        let ss := pyTupleStr s.shape
        if v.shape ≠ s.shape then
          .error (.valueError ("Incompatible shapes " ++ vs ++ " != " ++ ss))
        else if v.shape ≠ p.shape then
          .error (.valueError ("Incompatible shapes " ++ vs ++ " != " ++ ss))
        else .ok ()

/-- `IrisOutput.write`: `self.validate()` runs before `super().write(filename)`
opens the dataset, so a validation failure leaves no file at the path.  On the
success path the file is reopened in append mode and the Doppler dimension,
vector and volumes are added. -/
def IrisOutput.write (st : IrisOutputState) : WriteOutcome :=
  match IrisOutput.validate st with
  | .error e => { error := some e, fileAfter := none }
  | .ok () =>
    let w := BaseOutput.write st.base
    match w.error, w.fileAfter with
    | some e, f => { error := some e, fileAfter := f }
    | none, none => { error := none, fileAfter := none }
    | none, some dset =>
      let num_dop_elevs := st.dop_elevs.length
      let dset := dset.createDimension "dop_elevs" num_dop_elevs
      let dset := dset.createVariable "dop_elevs" ["dop_elevs"]
      let dset := dset.createVariable "total_power" ["dop_elevs", "azims", "gates"]
      let dset := dset.createVariable "velocity" ["dop_elevs", "azims", "gates"]
      let dset := dset.createVariable "spectrum_width" ["dop_elevs", "azims", "gates"]
      let dset := dset.setVar "dop_elevs" st.dop_elevs
      let azims := st.base.grid_info.azims
      let gates := st.base.grid_info.gates
      match st.total_power, st.velocity, st.spectrum_width with
      | some p, some v, some s =>
        if p.shape = [num_dop_elevs, azims, gates] then
          let dset := dset.setVar "total_power" p.data
          if v.shape = [num_dop_elevs, azims, gates] then
            let dset := dset.setVar "velocity" v.data
            if s.shape = [num_dop_elevs, azims, gates] then
              let dset := dset.setVar "spectrum_width" s.data
              { error := none, fileAfter := some dset }
            else { error := some (.valueError "could not broadcast input array"), fileAfter := some dset }
          else { error := some (.valueError "could not broadcast input array"), fileAfter := some dset }
        else { error := some (.valueError "could not broadcast input array"), fileAfter := some dset }
      | _, _, _ =>
        { error := some (.typeError "NoneType object is not subscriptable"), fileAfter := some dset }

/-- Events of one `append_target_id` call, in execution order. -/
inductive AppendEvent where
  | validated
  | openedAppend
  | createdVariable
  | wroteTargetId
  deriving DecidableEq

/-- Outcome of `append_target_id`: the events that happened and the raised
exception, if any. -/
structure AppendOutcome where
  events : List AppendEvent
  error : Option PyErr
  deriving DecidableEq

/-- `BaseOutput.append_target_id`.  `self.validate()` checks only the stored
dbz/joint fields, never `id_matrix`; the file is then reopened in append mode
(a state-changing step) and "target_id" is declared over the file's
`(dbz_elevs, azims, gates)` dimensions.  Only the final numpy slice assignment
depends on `id_matrix` (broadcast modelled as exact-shape agreement). -/
def append_target_id (st : BaseOutputState) (id_matrix : NDArray) : AppendOutcome :=
  match BaseOutput.validate st with
  | .error e => { events := [], error := some e }
  | .ok () =>
    if id_matrix.shape = [st.dbz_elevs.length, st.grid_info.azims, st.grid_info.gates] then
      { events := [.validated, .openedAppend, .createdVariable, .wroteTargetId], error := none }
    else
      { events := [.validated, .openedAppend, .createdVariable],
        error := some (.valueError "could not broadcast input array") }

/-- `OdimOutput.__init__`: raises before any attribute is assigned. -/
def OdimOutput.init (_metadata : Metadata) (_grid_info : GridInfo) : Except PyErr BaseOutputState :=
  .error (.notImplementedError "OdimOutput")

/-- `NexradOutput.__init__`: raises before any attribute is assigned. -/
def NexradOutput.init (_metadata : Metadata) (_grid_info : GridInfo) : Except PyErr BaseOutputState :=
  .error (.notImplementedError "NEXRAD")

/-- `OdimProcessor.__init__(self)` calls `super().__init__()`, but
`Processor.__init__(self, metadata, grid_info)` requires two positional
arguments, so Python raises `TypeError` at that call — before the
`raise NotImplmentedError(...)` line, which is itself a misspelling of
`NotImplementedError` and would raise `NameError` if ever reached. -/
def OdimProcessor.init : Except PyErr Unit :=
  .error (.typeError "__init__() missing 2 required positional arguments: metadata and grid_info")

/-- `NexradProcessor.__init__(self)`: same structure as `OdimProcessor`. -/
def NexradProcessor.init : Except PyErr Unit :=
  .error (.typeError "__init__() missing 2 required positional arguments: metadata and grid_info")

/-- The universal calibration fields loaded by `load_universal_calib`. -/
structure UniversalCalib where
  lats : NDArray
  lons : NDArray
  altitude : NDArray

/-- `Processor.verify_universal_calib`: each geometry grid must match
`(azims, gates)`; the message carries the field name and the actual shape. -/
def verify_universal_calib (grid_info : GridInfo) (c : UniversalCalib) : Except PyErr Unit :=
  let polar_dims := [grid_info.azims, grid_info.gates]
  if c.lats.shape ≠ polar_dims then
    .error (.valueError ("Lat grid invalid dims: " ++ pyTupleStr c.lats.shape))
  else if c.lons.shape ≠ polar_dims then
    .error (.valueError ("Lon grid invalid dims: " ++ pyTupleStr c.lons.shape))
  else if c.altitude.shape ≠ polar_dims then
    .error (.valueError ("Altitude grid invalid dims: " ++ pyTupleStr c.altitude.shape))
  else .ok ()

/-- The Iris-specific calibration fields loaded by `load_specific_calib`. -/
structure IrisCalib where
  convol_angles : List Rat
  dopvol_angles : List Rat
  convol_clutter : NDArray
  dopvol_clutter : NDArray

/-- `IrisProcessor.verify_specific_calib`. -/
def verify_specific_calib (grid_info : GridInfo) (c : IrisCalib) : Except PyErr Unit :=
  let num_convol := c.convol_angles.length
  let num_dopvol := c.dopvol_angles.length
  if num_convol ≤ 1 then .error (.valueError "Not enough CONVOL angles in calib")
  else if num_dopvol ≤ 1 then .error (.valueError "Not enough DOPVOL angles in calib")
  else
    let azims := grid_info.azims
    let gates := grid_info.gates
    let convol_dim := [num_convol, azims, gates]
    let dopvol_dim := [num_dopvol, azims, gates]
    if c.convol_clutter.shape ≠ convol_dim then
      .error (.valueError ("Invalid convol dimensions: " ++ pyTupleStr c.convol_clutter.shape))
    else if c.dopvol_clutter.shape ≠ dopvol_dim then
      .error (.valueError ("Invalid dopvol dimensions: " ++ pyTupleStr c.dopvol_clutter.shape))
    else .ok ()

/-- Does `needle` occur at the start of `hay`? -/
def leadsWith : List Char → List Char → Bool
  | [], _ => true
  | _ :: _, [] => false
  | a :: as, b :: bs => a = b && leadsWith as bs

/-- Does `needle` occur anywhere in `hay` (as chars)? -/
def charsContain (needle : List Char) : List Char → Bool
  | [] => leadsWith needle []
  | b :: bs => leadsWith needle (b :: bs) || charsContain needle bs

/-- Does string `hay` contain `needle` as a substring? -/
def strContains (hay needle : String) : Bool :=
  charsContain needle.toList hay.toList

/-- A boolean 3-D mask indexed by (elevation, azimuth, gate). -/
def Mask3 : Type := Nat → Nat → Nat → Bool

/-- A masked 3-D array (`np.ma` volume): its extents, data layer and mask
layer.  Only point reads/writes occur in the embedded code, so the layers are
total functions on indices. -/
structure MaskedArr3 where
  elevs : Nat
  azims : Nat
  gates : Nat
  data : Nat → Nat → Nat → Rat
  mask : Nat → Nat → Nat → Bool

/-- `array.shape` of a masked volume. -/
def MaskedArr3.shape (a : MaskedArr3) : Nat × Nat × Nat :=
  (a.elevs, a.azims, a.gates)

/-- The two scan-mode volumes of one `IrisData` object. -/
structure IrisDataM where
  convol : MaskedArr3
  dopvol : MaskedArr3

/-- `np.ma.mask_or`: elementwise logical union of two masks. -/
def mask_or (a b : Mask3) : Mask3 := fun e i j => a e i j || b e i j

/-- `IrisProcessor.impose_filter`: for each family, the fused mask is the
union of the supplied joint filter with the volume's pre-existing mask;
`np.ma.array(data, mask=m)` keeps the data and shape and replaces the mask.
The trailing shape checks mirror the source's post-conditions. -/
def impose_filter (iris_data : IrisDataM) (np_convol np_dopvol : Mask3) :
    Except PyErr IrisDataM :=
  let raw_dopvol_shape := iris_data.dopvol.shape
  let raw_convol_shape := iris_data.convol.shape
  let raw_dopvol_mask := iris_data.dopvol.mask
  let raw_convol_mask := iris_data.convol.mask
  let dopvol_mask := mask_or np_dopvol raw_dopvol_mask
  let convol_mask := mask_or np_convol raw_convol_mask
  let iris_out : IrisDataM :=
    { convol := { iris_data.convol with mask := convol_mask }
      dopvol := { iris_data.dopvol with mask := dopvol_mask } }
  if iris_out.dopvol.shape ≠ raw_dopvol_shape then
    .error (.valueError "Error in DOPVOL array size")
  else if iris_out.convol.shape ≠ raw_convol_shape then
    .error (.valueError "Error in new CONVOL array size")
  else .ok iris_out

/-- The `precip` section of the configuration file. -/
structure PrecipConfig where
  azim_region : Nat
  gate_region : Nat
  max_dbz_per_degree : Rat

/-- A Python float as it matters to the regression: a real number (modelled
as a rational) or nan. -/
inductive PyFloat where
  | val (q : Rat)
  | nan
  deriving DecidableEq

def PyFloat.isNan : PyFloat → Bool
  | .nan => true
  | .val _ => false

/-- The real value of a non-nan float (only consulted where nan has been
ruled out). -/
def PyFloat.toRat : PyFloat → Rat
  | .val q => q
  | .nan => 0

/-- Strict `>` between a float and a real threshold: every IEEE comparison
with nan is false. -/
def PyFloat.gt : PyFloat → Rat → Bool
  | .nan, _ => false
  | .val q, m => decide (q > m)

/-- Exact ordinary-least-squares slope over real samples:
`(n·Σxy − Σx·Σy) / (n·Σx² − (Σx)²)`. -/
def ols_slope (xs ys : List Rat) : Rat :=
  let n : Rat := xs.length
  let sx := xs.sum
  let sy := ys.sum
  let sxy := ((List.zip xs ys).map (fun p => p.1 * p.2)).sum
  let sxx := (xs.map (fun x => x * x)).sum
  (n * sxy - sx * sy) / (n * sxx - sx * sx)

/-- Slope of `scipy.stats.linregress` on float inputs: a nan among the pooled
values makes every covariance sum nan and hence the slope nan (IEEE nan
propagation); otherwise the slope is the exact ordinary-least-squares value.
The angle list comes from the calibration file and is real. -/
def linregress_slope (xs : List Rat) (ys : List PyFloat) : PyFloat :=
  if ys.any PyFloat.isNan then .nan
  else .val (ols_slope xs (ys.map PyFloat.toRat))

/-- The scalar that cell `(x, i, j)` contributes to `dbz_list`.  An unmasked
cell contributes its stored value.  For a masked cell,
`list(zone_data.flatten())` yields the `np.ma.masked` singleton, which
scipy's array conversion turns into a junk float — nan via
`MaskedArray.__float__` (numpy's "converting a masked element to nan"
warning) on the numpy contemporary to this code, the raw fill `0.0` under
versions that copy the 0-d array's data instead — and never the stored
value.  That junk value is therefore taken as a parameter `masked_as`, and
every theorem below holds for every choice of it. -/
def pooled_cell (masked_as : PyFloat) (convol : MaskedArr3) (x i j : Nat) : PyFloat :=
  if convol.mask x i j then masked_as else .val (convol.data x i j)

/-- The pooled `(angle, value)` pairs of one zone: for every CONVOL elevation
index and every cell of the zone's azimuth/gate block, the pair of that
elevation's scan angle and the cell's pooled scalar (`determine_zone_slope`'s
`angle_list`/`dbz_list`). -/
def zone_samples (masked_as : PyFloat) (convol_angles : List Rat) (convol : MaskedArr3)
    (azim_region gate_region azim_zone gate_zone : Nat) : List (Rat × PyFloat) :=
  let min_azim := azim_zone * azim_region
  let min_gate := gate_zone * gate_region
  (List.range convol_angles.length).flatMap (fun x =>
    (List.range azim_region).flatMap (fun i =>
      (List.range gate_region).map (fun j =>
        (convol_angles.getD x 0, pooled_cell masked_as convol x (min_azim + i) (min_gate + j)))))

/-- `IrisProcessor.determine_zone_slope`: only CONVOL scans feed the
regression ("We will only use CONVOL scans for determining slopes"). -/
def determine_zone_slope (masked_as : PyFloat) (convol_angles : List Rat) (convol : MaskedArr3)
    (azim_region gate_region azim_zone gate_zone : Nat) : PyFloat :=
  let samples := zone_samples masked_as convol_angles convol azim_region gate_region azim_zone gate_zone
  linregress_slope (samples.map Prod.fst) (samples.map Prod.snd)

/-- The claim's criterion, stated from the spec's words: the exact
ordinary-least-squares slope of the zone's pooled (angle, stored value)
pairs, the mask layer ignored.  `determine_zone_slope_unmasked` shows the
program's slope agrees with it exactly on zones without masked cells. -/
def data_zone_slope (convol_angles : List Rat) (convol : MaskedArr3)
    (azim_region gate_region azim_zone gate_zone : Nat) : Rat :=
  let min_azim := azim_zone * azim_region
  let min_gate := gate_zone * gate_region
  let samples := (List.range convol_angles.length).flatMap (fun x =>
    (List.range azim_region).flatMap (fun i =>
      (List.range gate_region).map (fun j =>
        (convol_angles.getD x 0, convol.data x (min_azim + i) (min_gate + j)))))
  ols_slope (samples.map Prod.fst) (samples.map Prod.snd)

/-- Does cell `(i, j)` lie in the azimuth/gate window
`[min_azim, max_azim) × [min_gate, max_gate)`? -/
def in_block (min_azim max_azim min_gate max_gate i j : Nat) : Bool :=
  decide (min_azim ≤ i) && decide (i < max_azim) &&
    decide (min_gate ≤ j) && decide (j < max_gate)

/-- `filter_3d[:, min_azim:max_azim, min_gate:max_gate] = True`. -/
def set_block (m : Mask3) (min_azim max_azim min_gate max_gate : Nat) : Mask3 :=
  fun e i j => if in_block min_azim max_azim min_gate max_gate i j then true else m e i j

/-- The zone indices visited by the nested loops of `filter_precip`, in loop
order. -/
def zone_list (azim_zones gate_zones : Nat) : List (Nat × Nat) :=
  (List.range azim_zones).flatMap (fun x => (List.range gate_zones).map (fun y => (x, y)))

/-- Is zone `z`'s fitted slope strictly above the configured threshold?
(False whenever the slope is nan.) -/
def zone_contaminated (masked_as : PyFloat) (cfg : PrecipConfig) (convol_angles : List Rat)
    (convol : MaskedArr3) (z : Nat × Nat) : Bool :=
  PyFloat.gt (determine_zone_slope masked_as convol_angles convol
    cfg.azim_region cfg.gate_region z.1 z.2) cfg.max_dbz_per_degree

/-- One iteration of `filter_precip`'s zone loop, threading the processor
state `(iris_data, (convol filter, dopvol filter))`: the slope is read from
the CONVOL volume, and when it strictly exceeds the threshold the zone's
block is set in BOTH families' filters.  `iris_data` is only read. -/
def precip_zone_step (masked_as : PyFloat) (cfg : PrecipConfig) (convol_angles : List Rat)
    (st : IrisDataM × (Mask3 × Mask3)) (z : Nat × Nat) : IrisDataM × (Mask3 × Mask3) :=
  let slope := determine_zone_slope masked_as convol_angles st.1.convol
    cfg.azim_region cfg.gate_region z.1 z.2
  if PyFloat.gt slope cfg.max_dbz_per_degree then
    let min_azim := z.1 * cfg.azim_region
    let max_azim := (z.1 + 1) * cfg.azim_region
    let min_gate := z.2 * cfg.gate_region
    let max_gate := (z.2 + 1) * cfg.gate_region
    (st.1, (set_block st.2.1 min_azim max_azim min_gate max_gate,
            set_block st.2.2 min_azim max_azim min_gate max_gate))
  else st

/-- `IrisProcessor.filter_precip`: region sizes must evenly divide the grid
extents, then every zone is visited; returns the iris data (only read) and
the two updated precip filters. -/
def filter_precip (masked_as : PyFloat) (grid_info : GridInfo) (cfg : PrecipConfig)
    (convol_angles : List Rat) (iris_data : IrisDataM) (convol_precip dopvol_precip : Mask3) :
    Except PyErr (IrisDataM × (Mask3 × Mask3)) :=
  if grid_info.azims % cfg.azim_region ≠ 0 then
    .error (.valueError ("Choose value of azim_region that divides " ++
      toString grid_info.azims ++ " evenly."))
  else if grid_info.gates % cfg.gate_region ≠ 0 then
    .error (.valueError ("Choose value of gate_region that divides " ++
      toString grid_info.gates ++ " evenly"))
  else
    let azim_zones := grid_info.azims / cfg.azim_region
    let gate_zones := grid_info.gates / cfg.gate_region
    .ok ((zone_list azim_zones gate_zones).foldl (precip_zone_step masked_as cfg convol_angles)
      (iris_data, (convol_precip, dopvol_precip)))

/-- Modelled from the spec: the `PrecipFilter` class (bugtracker/core/precip.py)
is not under src/; per the spec a ZoneMask is "Created fresh per processing
call", so a new filter's `filter_3d` starts with every cell False. -/
def precip_filter_3d_init : Mask3 := fun _ _ _ => false

/-- `astype(bool)` of a numeric clutter entry: nonzero becomes True. -/
def astype_bool (x : Rat) : Bool := decide (x ≠ 0)

/-- The calibration-derived state of an `IrisProcessor` used by
`process_set`: configuration, scan-angle lists and numeric clutter volumes. -/
structure IrisProcessorState where
  grid_info : GridInfo
  config : PrecipConfig
  convol_angles : List Rat
  dopvol_angles : List Rat
  convol_clutter : Nat → Nat → Nat → Rat
  dopvol_clutter : Nat → Nat → Nat → Rat

/-- `IrisProcessor.process_set`, restricted to its data flow (the plotting
calls only write image files): fresh precip filters are built, `filter_precip`
fills them, each family's joint mask is the union of that family's clutter
mask (`astype(bool)`) with that family's precip filter, and `impose_filter`
fuses the joint masks into the volumes. -/
def process_set (masked_as : PyFloat) (st : IrisProcessorState) (iris_data : IrisDataM) :
    Except PyErr IrisDataM :=
  let convol_precip := precip_filter_3d_init
  let dopvol_precip := precip_filter_3d_init
  match filter_precip masked_as st.grid_info st.config st.convol_angles iris_data
      convol_precip dopvol_precip with
  | .error e => .error e
  | .ok r =>
    let convol_joint : Mask3 := fun e i j => astype_bool (st.convol_clutter e i j) || r.2.1 e i j
    let dopvol_joint : Mask3 := fun e i j => astype_bool (st.dopvol_clutter e i j) || r.2.2 e i j
    impose_filter r.1 convol_joint dopvol_joint

/-- A cell index divides into a zone index exactly when it lies in that
zone's half-open window. -/
theorem div_eq_iff_between (k i x : Nat) (hk : 0 < k) :
    i / k = x ↔ (x * k ≤ i ∧ i < (x + 1) * k) := by
  constructor
  · intro h
    have hmod := Nat.div_add_mod i k
    have hlt := Nat.mod_lt i hk
    rw [h] at hmod
    constructor
    · calc x * k = k * x := Nat.mul_comm x k
        _ ≤ k * x + i % k := Nat.le_add_right _ _
        _ = i := hmod
    · calc i = k * x + i % k := hmod.symm
        _ < k * x + k := Nat.add_lt_add_left hlt _
        _ = x * k + k := by rw [Nat.mul_comm]
        _ = (x + 1) * k := (Nat.succ_mul x k).symm
  · rintro ⟨h1, h2⟩
    have hx : x ≤ i / k := (Nat.le_div_iff_mul_le hk).2 h1
    have hx2 : i / k < x + 1 := (Nat.div_lt_iff_lt_mul hk).2 h2
    omega

/-- `in_block` for a zone's window holds exactly at the cells whose zone
indices are that zone. -/
theorem in_block_eq_true_iff (ar gr x y i j : Nat) (har : 0 < ar) (hgr : 0 < gr) :
    in_block (x * ar) ((x + 1) * ar) (y * gr) ((y + 1) * gr) i j = true ↔
      (i / ar = x ∧ j / gr = y) := by
  unfold in_block
  simp only [Bool.and_eq_true, decide_eq_true_eq]
  rw [div_eq_iff_between ar i x har, div_eq_iff_between gr j y hgr]
  tauto

/-- Every in-range zone index pair is visited by the zone loop. -/
theorem zone_mem_zone_list (az gz x y : Nat) (hx : x < az) (hy : y < gz) :
    (x, y) ∈ zone_list az gz := by
  unfold zone_list
  simp only [List.mem_flatMap, List.mem_map, List.mem_range]
  exact ⟨x, hx, y, hy, rfl⟩

/-- The zone loop visits exactly `azim_zones * gate_zones` zones. -/
theorem zone_list_length (az gz : Nat) : (zone_list az gz).length = az * gz := by
  induction az with
  | zero => simp [zone_list]
  | succ n ih =>
    unfold zone_list at ih ⊢
    rw [List.range_succ, List.flatMap_append, List.length_append, ih]
    simp [Nat.succ_mul]

/-- The zone loop never writes to the iris data component of the state. -/
theorem precip_foldl_fst (masked_as : PyFloat) (cfg : PrecipConfig) (angles : List Rat)
    (L : List (Nat × Nat)) (st : IrisDataM × (Mask3 × Mask3)) :
    (L.foldl (precip_zone_step masked_as cfg angles) st).1 = st.1 := by
  induction L generalizing st with
  | nil => rfl
  | cons z L ih =>
    rw [List.foldl_cons, ih]
    simp only [precip_zone_step]
    split <;> rfl

/-- Pointwise effect of the zone loop on the two precip filters: a cell ends
`True` exactly when it started `True` or some visited zone whose window
contains the cell is contaminated. -/
theorem precip_foldl_mask_point (masked_as : PyFloat) (cfg : PrecipConfig) (angles : List Rat)
    (L : List (Nat × Nat)) (st : IrisDataM × (Mask3 × Mask3)) (e i j : Nat) :
    (L.foldl (precip_zone_step masked_as cfg angles) st).2.1 e i j =
      (st.2.1 e i j ||
        L.any (fun z => in_block (z.1 * cfg.azim_region) ((z.1 + 1) * cfg.azim_region)
          (z.2 * cfg.gate_region) ((z.2 + 1) * cfg.gate_region) i j &&
          zone_contaminated masked_as cfg angles st.1.convol z)) ∧
    (L.foldl (precip_zone_step masked_as cfg angles) st).2.2 e i j =
      (st.2.2 e i j ||
        L.any (fun z => in_block (z.1 * cfg.azim_region) ((z.1 + 1) * cfg.azim_region)
          (z.2 * cfg.gate_region) ((z.2 + 1) * cfg.gate_region) i j &&
          zone_contaminated masked_as cfg angles st.1.convol z)) := by
  induction L generalizing st with
  | nil => simp
  | cons z L ih =>
    rw [List.foldl_cons]
    rcases ih (precip_zone_step masked_as cfg angles st z) with ⟨h1, h2⟩
    have hfst : (precip_zone_step masked_as cfg angles st z).1 = st.1 := by
      simp only [precip_zone_step]; split <;> rfl
    rw [h1, h2]
    simp only [hfst, List.any_cons]
    constructor
    · simp only [precip_zone_step, zone_contaminated]
      split
      next hgt =>
        simp only [set_block]
        by_cases hb : in_block (z.1 * cfg.azim_region) ((z.1 + 1) * cfg.azim_region)
          (z.2 * cfg.gate_region) ((z.2 + 1) * cfg.gate_region) i j = true
        · simp [hb, hgt]
        · simp only [Bool.not_eq_true] at hb
          simp [hb]
      next hle =>
        have hf : PyFloat.gt (determine_zone_slope masked_as angles st.1.convol
            cfg.azim_region cfg.gate_region z.1 z.2) cfg.max_dbz_per_degree = false := by
          simpa using hle
        simp [hf]
    · simp only [precip_zone_step, zone_contaminated]
      split
      next hgt =>
        simp only [set_block]
        by_cases hb : in_block (z.1 * cfg.azim_region) ((z.1 + 1) * cfg.azim_region)
          (z.2 * cfg.gate_region) ((z.2 + 1) * cfg.gate_region) i j = true
        · simp [hb, hgt]
        · simp only [Bool.not_eq_true] at hb
          simp [hb]
      next hle =>
        have hf : PyFloat.gt (determine_zone_slope masked_as angles st.1.convol
            cfg.azim_region cfg.gate_region z.1 z.2) cfg.max_dbz_per_degree = false := by
          simpa using hle
        simp [hf]

/-- Over the full zone loop, the "some visited zone contains the cell and is
contaminated" condition collapses to the contamination of the cell's own
zone, because the zone windows partition the grid. -/
theorem any_zone_eq (masked_as : PyFloat) (cfg : PrecipConfig) (angles : List Rat)
    (cv : MaskedArr3) (grid : GridInfo) (i j : Nat)
    (har : 0 < cfg.azim_region) (hgr : 0 < cfg.gate_region)
    (hdva : cfg.azim_region ∣ grid.azims) (hdvg : cfg.gate_region ∣ grid.gates)
    (hi : i < grid.azims) (hj : j < grid.gates) :
    ((zone_list (grid.azims / cfg.azim_region) (grid.gates / cfg.gate_region)).any
      (fun z => in_block (z.1 * cfg.azim_region) ((z.1 + 1) * cfg.azim_region)
        (z.2 * cfg.gate_region) ((z.2 + 1) * cfg.gate_region) i j &&
        zone_contaminated masked_as cfg angles cv z)) =
      zone_contaminated masked_as cfg angles cv (i / cfg.azim_region, j / cfg.gate_region) := by
  cases hc : zone_contaminated masked_as cfg angles cv (i / cfg.azim_region, j / cfg.gate_region) with
  | false =>
    rw [List.any_eq_false]
    intro z hz
    by_cases hb : in_block (z.1 * cfg.azim_region) ((z.1 + 1) * cfg.azim_region)
        (z.2 * cfg.gate_region) ((z.2 + 1) * cfg.gate_region) i j = true
    · obtain ⟨h1, h2⟩ := (in_block_eq_true_iff _ _ _ _ _ _ har hgr).1 hb
      have hzeq : z = (i / cfg.azim_region, j / cfg.gate_region) := by
        cases z; simp_all
      rw [hb, hzeq, hc]
      simp
    · simp only [Bool.not_eq_true] at hb
      simp [hb]
  | true =>
    rw [List.any_eq_true]
    refine ⟨(i / cfg.azim_region, j / cfg.gate_region), ?_, ?_⟩
    · exact zone_mem_zone_list _ _ _ _
        (Nat.div_lt_div_of_lt_of_dvd hdva hi) (Nat.div_lt_div_of_lt_of_dvd hdvg hj)
    · rw [Bool.and_eq_true]
      exact ⟨(in_block_eq_true_iff _ _ _ _ _ _ har hgr).2 ⟨rfl, rfl⟩, hc⟩

/-- Inversion of a successful `filter_precip` call: both region sizes divide
the grid extents and the result is the zone-loop fold. -/
theorem filter_precip_ok_inv (masked_as : PyFloat) (grid : GridInfo) (cfg : PrecipConfig)
    (angles : List Rat) (iris : IrisDataM) (cp dp : Mask3) (r : IrisDataM × (Mask3 × Mask3))
    (h : filter_precip masked_as grid cfg angles iris cp dp = .ok r) :
    grid.azims % cfg.azim_region = 0 ∧ grid.gates % cfg.gate_region = 0 ∧
      r = (zone_list (grid.azims / cfg.azim_region) (grid.gates / cfg.gate_region)).foldl
        (precip_zone_step masked_as cfg angles) (iris, (cp, dp)) := by
  simp only [filter_precip] at h
  by_cases h1 : grid.azims % cfg.azim_region ≠ 0
  · rw [if_pos h1] at h; cases h
  · rw [if_neg h1] at h
    by_cases h2 : grid.gates % cfg.gate_region ≠ 0
    · rw [if_pos h2] at h; cases h
    · rw [if_neg h2] at h
      push_neg at h1 h2
      cases h
      exact ⟨h1, h2, rfl⟩

/-- `filter_precip` returns the iris data it was given: the detection pass
only reads the scan volume. -/
theorem filter_precip_fst (masked_as : PyFloat) (grid : GridInfo) (cfg : PrecipConfig)
    (angles : List Rat) (iris : IrisDataM) (cp dp : Mask3) (r : IrisDataM × (Mask3 × Mask3))
    (h : filter_precip masked_as grid cfg angles iris cp dp = .ok r) : r.1 = iris := by
  obtain ⟨-, -, rfl⟩ := filter_precip_ok_inv masked_as grid cfg angles iris cp dp r h
  exact precip_foldl_fst _ _ _ _ _

/-- Pointwise value of the filters produced by a successful `filter_precip`
call: initial filter value joined with the contamination flag of the cell's
own zone (computed from the CONVOL volume only). -/
theorem filter_precip_ok_point (masked_as : PyFloat) (grid : GridInfo) (cfg : PrecipConfig)
    (angles : List Rat) (iris : IrisDataM) (cp dp : Mask3) (r : IrisDataM × (Mask3 × Mask3))
    (har : 0 < cfg.azim_region) (hgr : 0 < cfg.gate_region)
    (h : filter_precip masked_as grid cfg angles iris cp dp = .ok r)
    (e i j : Nat) (hi : i < grid.azims) (hj : j < grid.gates) :
    r.2.1 e i j = (cp e i j || zone_contaminated masked_as cfg angles iris.convol
      (i / cfg.azim_region, j / cfg.gate_region)) ∧
    r.2.2 e i j = (dp e i j || zone_contaminated masked_as cfg angles iris.convol
      (i / cfg.azim_region, j / cfg.gate_region)) := by
  obtain ⟨h1, h2, rfl⟩ := filter_precip_ok_inv masked_as grid cfg angles iris cp dp r h
  have hdva : cfg.azim_region ∣ grid.azims := Nat.dvd_of_mod_eq_zero h1
  have hdvg : cfg.gate_region ∣ grid.gates := Nat.dvd_of_mod_eq_zero h2
  rcases precip_foldl_mask_point masked_as cfg angles
    (zone_list (grid.azims / cfg.azim_region) (grid.gates / cfg.gate_region))
    (iris, (cp, dp)) e i j with ⟨p1, p2⟩
  rw [p1, p2, any_zone_eq masked_as cfg angles iris.convol grid i j har hgr hdva hdvg hi hj]
  exact ⟨rfl, rfl⟩

/-- On a zone without masked cells, every pooled scalar is the stored value. -/
theorem zone_samples_unmasked (masked_as : PyFloat) (convol_angles : List Rat)
    (convol : MaskedArr3) (ar gr az gz : Nat)
    (hm : ∀ x i j, x < convol_angles.length → i < ar → j < gr →
      convol.mask x (az * ar + i) (gz * gr + j) = false) :
    zone_samples masked_as convol_angles convol ar gr az gz =
      ((List.range convol_angles.length).flatMap (fun x =>
        (List.range ar).flatMap (fun i =>
          (List.range gr).map (fun j =>
            (convol_angles.getD x 0, convol.data x (az * ar + i) (gz * gr + j)))))).map
        (fun p => (p.1, PyFloat.val p.2)) := by
  simp only [zone_samples]
  rw [List.map_flatMap]
  apply List.flatMap_congr
  intro x hx
  rw [List.map_flatMap]
  apply List.flatMap_congr
  intro i hi
  rw [List.map_map]
  apply List.map_congr_left
  intro j hj
  simp only [Function.comp]
  rw [pooled_cell, if_neg]
  rw [hm x i j (List.mem_range.1 hx) (List.mem_range.1 hi) (List.mem_range.1 hj)]
  simp

/-- `linregress_slope` on real-only (never-nan) samples is the exact
ordinary-least-squares value. -/
theorem linregress_slope_val (S : List (Rat × Rat)) :
    linregress_slope ((S.map (fun p => (p.1, PyFloat.val p.2))).map Prod.fst)
        ((S.map (fun p => (p.1, PyFloat.val p.2))).map Prod.snd) =
      .val (ols_slope (S.map Prod.fst) (S.map Prod.snd)) := by
  have hsnd : (S.map (fun p => (p.1, PyFloat.val p.2))).map Prod.snd =
      S.map (fun p => PyFloat.val p.2) := by
    rw [List.map_map]
    exact List.map_congr_left (fun p _ => rfl)
  have hfst : (S.map (fun p => (p.1, PyFloat.val p.2))).map Prod.fst =
      S.map Prod.fst := by
    rw [List.map_map]
    exact List.map_congr_left (fun p _ => rfl)
  have hno : (S.map (fun p => PyFloat.val p.2)).any PyFloat.isNan = false := by
    induction S with
    | nil => rfl
    | cons a t ih => simp [ih, PyFloat.isNan]
  have htor : (S.map (fun p => PyFloat.val p.2)).map PyFloat.toRat = S.map Prod.snd := by
    rw [List.map_map]
    exact List.map_congr_left (fun p _ => rfl)
  unfold linregress_slope
  rw [hsnd, hfst, hno]
  simp [htor]

/-- On a zone without masked cells the program's slope is exactly the
ordinary-least-squares slope of the stored (angle, value) pairs — the claim's
criterion — whatever the masked conversion value is. -/
theorem determine_zone_slope_unmasked (masked_as : PyFloat) (convol_angles : List Rat)
    (convol : MaskedArr3) (ar gr az gz : Nat)
    (hm : ∀ x i j, x < convol_angles.length → i < ar → j < gr →
      convol.mask x (az * ar + i) (gz * gr + j) = false) :
    determine_zone_slope masked_as convol_angles convol ar gr az gz =
      .val (data_zone_slope convol_angles convol ar gr az gz) := by
  simp only [determine_zone_slope, data_zone_slope]
  rw [zone_samples_unmasked masked_as convol_angles convol ar gr az gz hm]
  exact linregress_slope_val _

/-- C7: the Odim and Nexrad *output* variants do fail immediately and
unconditionally with NotImplemented for every constructor argument, but the
Odim and Nexrad *processor* variants do not: their `__init__` calls
`super().__init__()` without the two required positional arguments, so Python
raises `TypeError` there (and the `raise NotImplmentedError(...)` line behind
it is a misspelling that could only raise `NameError`); hence the processor
constructors never fail with NotImplemented. -/
theorem C7_unimplemented_variants :
    (∀ m g, OdimOutput.init m g = .error (.notImplementedError "OdimOutput")) ∧
    (∀ m g, NexradOutput.init m g = .error (.notImplementedError "NEXRAD")) ∧
    OdimProcessor.init =
      .error (.typeError "__init__() missing 2 required positional arguments: metadata and grid_info") ∧
    NexradProcessor.init =
      .error (.typeError "__init__() missing 2 required positional arguments: metadata and grid_info") ∧
    (∀ msg, OdimProcessor.init ≠ .error (.notImplementedError msg)) ∧
    (∀ msg, NexradProcessor.init ≠ .error (.notImplementedError msg)) := by
  refine ⟨fun _ _ => rfl, fun _ _ => rfl, rfl, rfl, fun msg h => ?_, fun msg h => ?_⟩ <;>
    simp [OdimProcessor.init, NexradProcessor.init] at h

/-- Grid and calibration fields for the C8 counterexample: a 4×4 grid with a
latitude grid reshaped to (2, 3). -/
def c8Grid : GridInfo := ⟨4, 4⟩

def c8GoodField : NDArray := ⟨[4, 4], List.replicate 16 0⟩

def c8BadLats : NDArray := ⟨[2, 3], List.replicate 6 0⟩

def c8Calib : UniversalCalib := ⟨c8BadLats, c8GoodField, c8GoodField⟩

/-- C8 counterexample: with grid (4, 4) and a latitude grid of shape (2, 3),
`verify_universal_calib` raises "Lat grid invalid dims: (2, 3)" — a message
that names the field and the actual shape but nowhere contains the expected
shape (the digit 4 does not occur in it at all), refuting the claim that both
expected and actual shapes are reported. -/
theorem C8_counterexample :
    verify_universal_calib c8Grid c8Calib =
      .error (.valueError "Lat grid invalid dims: (2, 3)") ∧
    strContains "Lat grid invalid dims: (2, 3)" "(4, 4)" = false ∧
    strContains "Lat grid invalid dims: (2, 3)" "4" = false := by decide

/-- C8 (amended): every calibration field whose loaded shape disagrees with
the grid geometry makes validation fail with a shape-mismatch error whose
message names the offending field and reports the actual shape (the expected
shape is not part of the message). -/
theorem C8_calib_shape_error_names_field_and_actual (g : GridInfo)
    (c : UniversalCalib) (ic : IrisCalib) :
    (c.lats.shape ≠ [g.azims, g.gates] →
      verify_universal_calib g c =
        .error (.valueError ("Lat grid invalid dims: " ++ pyTupleStr c.lats.shape))) ∧
    (c.lats.shape = [g.azims, g.gates] → c.lons.shape ≠ [g.azims, g.gates] →
      verify_universal_calib g c =
        .error (.valueError ("Lon grid invalid dims: " ++ pyTupleStr c.lons.shape))) ∧
    (c.lats.shape = [g.azims, g.gates] → c.lons.shape = [g.azims, g.gates] →
      c.altitude.shape ≠ [g.azims, g.gates] →
      verify_universal_calib g c =
        .error (.valueError ("Altitude grid invalid dims: " ++ pyTupleStr c.altitude.shape))) ∧
    (1 < ic.convol_angles.length → 1 < ic.dopvol_angles.length →
      ic.convol_clutter.shape ≠ [ic.convol_angles.length, g.azims, g.gates] →
      verify_specific_calib g ic =
        .error (.valueError ("Invalid convol dimensions: " ++ pyTupleStr ic.convol_clutter.shape))) ∧
    (1 < ic.convol_angles.length → 1 < ic.dopvol_angles.length →
      ic.convol_clutter.shape = [ic.convol_angles.length, g.azims, g.gates] →
      ic.dopvol_clutter.shape ≠ [ic.dopvol_angles.length, g.azims, g.gates] →
      verify_specific_calib g ic =
        .error (.valueError ("Invalid dopvol dimensions: " ++ pyTupleStr ic.dopvol_clutter.shape))) := by
  refine ⟨?_, ?_, ?_, ?_, ?_⟩
  · intro h1
    simp only [verify_universal_calib]
    rw [if_pos h1]
  · intro h1 h2
    simp only [verify_universal_calib]
    rw [if_neg (by simp [h1]), if_pos h2]
  · intro h1 h2 h3
    simp only [verify_universal_calib]
    rw [if_neg (by simp [h1]), if_neg (by simp [h2]), if_pos h3]
  · intro h1 h2 h3
    simp only [verify_specific_calib]
    rw [if_neg (by omega), if_neg (by omega), if_pos h3]
  · intro h1 h2 h3 h4
    simp only [verify_specific_calib]
    rw [if_neg (by omega), if_neg (by omega), if_neg (by simp [h3]), if_pos h4]

def c8LonsBad : UniversalCalib := ⟨c8GoodField, c8BadLats, c8GoodField⟩

/-- Witness for the amended C8 theorem at a concrete input (mismatched
longitude grid). -/
theorem C8_witness :
    verify_universal_calib c8Grid c8LonsBad =
      .error (.valueError ("Lon grid invalid dims: " ++ pyTupleStr c8LonsBad.lons.shape)) :=
  (C8_calib_shape_error_names_field_and_actual c8Grid c8LonsBad
    ⟨[], [], c8GoodField, c8GoodField⟩).2.1 (by decide) (by decide)

/-- C10: `append_target_id`'s pre-append validation never examines
`id_matrix`: whenever the stored dbz/joint fields validate, the call reaches
the state-changing reopen-in-append-mode step for *every* `id_matrix`,
whatever its shape, and the pre-append phase (validated, then opened) is
identical for any two classification volumes.  Any shape inconsistency of
`id_matrix` can only surface afterwards. -/
theorem C10_append_validation_ignores_id_matrix (st : BaseOutputState)
    (id_matrix other : NDArray) (h : BaseOutput.validate st = .ok ()) :
    (append_target_id st id_matrix).events.take 2 =
      [AppendEvent.validated, AppendEvent.openedAppend] ∧
    (append_target_id st id_matrix).events.take 2 =
      (append_target_id st other).events.take 2 := by
  unfold append_target_id
  rw [h]
  dsimp only
  constructor
  · split <;> rfl
  · split <;> split <;> rfl

/-- A concrete populated writer state, valid for the base validation: grid
4×4, three elevations, volumes of shape (3, 4, 4), joint product (4, 4). -/
def sampleMetadata : Metadata := ⟨50, -97, "XAM", 2019, 7, 15, 12, 30, "radar"⟩

def sampleElevs : List Rat := [1/2, 3/2, 5/2]

def sampleFiltered : NDArray := ⟨[3, 4, 4], (List.range 48).map (fun n => (n : Rat))⟩

def sampleUnfiltered : NDArray := ⟨[3, 4, 4], (List.range 48).map (fun n => (n : Rat) + 100)⟩

def sampleJoint : NDArray := ⟨[4, 4], (List.range 16).map (fun n => (n : Rat) + 7)⟩

def sampleBase : BaseOutputState :=
  ⟨sampleMetadata, ⟨4, 4⟩, "iris", sampleElevs,
    some sampleFiltered, some sampleUnfiltered, some sampleJoint⟩

/-- Witness for C10: a valid stored state and an `id_matrix` of the absurd
shape (1,) still reaches the append-mode reopen. -/
theorem C10_witness :
    (append_target_id sampleBase ⟨[1], [0]⟩).events.take 2 =
      [AppendEvent.validated, AppendEvent.openedAppend] ∧
    (append_target_id sampleBase ⟨[1], [0]⟩).events.take 2 =
      (append_target_id sampleBase ⟨[9, 9, 9, 9], []⟩).events.take 2 :=
  C10_append_validation_ignores_id_matrix sampleBase ⟨[1], [0]⟩ ⟨[9, 9, 9, 9], []⟩ (by decide)

/-- C4: `impose_filter` is monotonic — it always succeeds, each family's new
mask is the union of the supplied joint mask with the volume's pre-existing
mask (so every previously masked cell stays masked), and both volumes keep
their shapes. -/
theorem C4_impose_filter_monotonic (iris_data : IrisDataM) (np_convol np_dopvol : Mask3) :
    ∃ out, impose_filter iris_data np_convol np_dopvol = .ok out ∧
      out.convol.shape = iris_data.convol.shape ∧
      out.dopvol.shape = iris_data.dopvol.shape ∧
      (∀ e i j, iris_data.convol.mask e i j = true → out.convol.mask e i j = true) ∧
      (∀ e i j, iris_data.dopvol.mask e i j = true → out.dopvol.mask e i j = true) := by
  refine ⟨{ convol := { iris_data.convol with mask := mask_or np_convol iris_data.convol.mask }
            dopvol := { iris_data.dopvol with mask := mask_or np_dopvol iris_data.dopvol.mask } },
    ?_, rfl, rfl, ?_, ?_⟩
  · simp [impose_filter, MaskedArr3.shape]
  · intro e i j hm
    simp [mask_or, hm]
  · intro e i j hm
    simp [mask_or, hm]

/-- A concrete two-volume dataset and joint mask for the C4 witness. -/
def c4Iris : IrisDataM :=
  { convol := ⟨2, 2, 2, fun _ _ _ => 1, fun e i j => decide (e = 0 ∧ i = 0 ∧ j = 0)⟩
    dopvol := ⟨2, 2, 2, fun _ _ _ => 2, fun _ _ _ => false⟩ }

def c4Np : Mask3 := fun _ i _ => decide (i = 1)

/-- Witness for C4 at a concrete volume and mask pair. -/
theorem C4_witness :
    ∃ out, impose_filter c4Iris c4Np c4Np = .ok out ∧
      out.convol.shape = c4Iris.convol.shape ∧
      out.dopvol.shape = c4Iris.dopvol.shape ∧
      (∀ e i j, c4Iris.convol.mask e i j = true → out.convol.mask e i j = true) ∧
      (∀ e i j, c4Iris.dopvol.mask e i j = true → out.dopvol.mask e i j = true) :=
  C4_impose_filter_monotonic c4Iris c4Np c4Np

/-- The iris data object as left by a `filter_precip` call (on an exception
the object is left as it was, since the method never assigns to it). -/
def iris_after_filter_precip (masked_as : PyFloat) (grid : GridInfo) (cfg : PrecipConfig)
    (angles : List Rat) (iris : IrisDataM) (cp dp : Mask3) : IrisDataM :=
  match filter_precip masked_as grid cfg angles iris cp dp with
  | .ok r => r.1
  | .error _ => iris

/-- C9: the contamination-detection pass never mutates the input volume —
after `filter_precip` (which also runs every `determine_zone_slope`), the
iris data, including every data value and every mask bit of both scan
volumes, is exactly the input; only the caller-supplied precip filters
receive the new zone masks. -/
theorem C9_detection_does_not_mutate_volume (masked_as : PyFloat) (grid : GridInfo)
    (cfg : PrecipConfig) (angles : List Rat) (iris : IrisDataM) (cp dp : Mask3) :
    iris_after_filter_precip masked_as grid cfg angles iris cp dp = iris := by
  unfold iris_after_filter_precip
  cases hfp : filter_precip masked_as grid cfg angles iris cp dp with
  | error e => rfl
  | ok r => exact filter_precip_fst masked_as grid cfg angles iris cp dp r hfp

/-- The file produced by `BaseOutput.write` on the sample state. -/
def c1File : NCFile := ((BaseOutput.write sampleBase).fileAfter).getD ({} : NCFile)

/-- C1: writing a fully valid `OutputVolumeSet` (elevations [0.5, 1.5, 2.5],
grid 4×4, volumes (3,4,4), joint product (4,4)) and reading the file back
returns identical data for `dbz_elevs`, `dbz_filtered`, `dbz_unfiltered` and
identical identity attributes — but NOT for the 2-D joint product: the file's
`dbz_joint` variable still holds the netCDF fill values, because the source
rebinds the local `nc_dbz_joint` name instead of assigning into the variable.
The round-trip claim therefore fails exactly on `dbz_joint`. -/
theorem C1_write_roundtrip_loses_joint :
    (BaseOutput.write sampleBase).error = none ∧
    (BaseOutput.write sampleBase).fileAfter = some c1File ∧
    c1File.getVar "dbz_elevs" = some sampleElevs ∧
    c1File.getVar "dbz_filtered" = some sampleFiltered.data ∧
    c1File.getVar "dbz_unfiltered" = some sampleUnfiltered.data ∧
    c1File.latitude = some sampleMetadata.lat ∧
    c1File.longitude = some sampleMetadata.lon ∧
    c1File.radar_id = some sampleMetadata.radar_id ∧
    c1File.datetime = some "201907151230" ∧
    c1File.name = some sampleMetadata.name ∧
    c1File.filetype = some "iris" ∧
    c1File.getVar "dbz_joint" ≠ some sampleJoint.data ∧
    c1File.getVar "dbz_joint" = some (List.replicate 16 ncFillDouble) := by decide

/-- The spec's end-to-end detection scenario: 8×8 grid, 4×4 zone regions,
three scan angles [0.5, 1.0, 1.5], reflectivity in zone (0,0) rising 20 dB
per degree, all other zones flat, threshold 5.0 dB/degree. -/
def scenarioGrid : GridInfo := ⟨8, 8⟩

def scenarioCfg : PrecipConfig := ⟨4, 4, 5⟩

def scenarioAngles : List Rat := [1/2, 1, 3/2]

def scenarioIris : IrisDataM :=
  { convol := ⟨3, 8, 8,
      fun x i j => if i < 4 ∧ j < 4 then 20 * scenarioAngles.getD x 0 else 7,
      fun _ _ _ => false⟩
    dopvol := ⟨3, 8, 8, fun _ _ _ => 0, fun _ _ _ => false⟩ }

/-- The zone-loop fold on the scenario (the value `filter_precip` returns;
the scenario volume is unmasked, so the masked conversion value is
irrelevant and fixed to nan). -/
def scenarioResult : IrisDataM × (Mask3 × Mask3) :=
  (zone_list 2 2).foldl (precip_zone_step PyFloat.nan scenarioCfg scenarioAngles)
    (scenarioIris, (precip_filter_3d_init, precip_filter_3d_init))

/-- C3: starting from fresh (all-False) filters, the detection pass sets a
cell `True` in both families' filters exactly when the slope
`scipy.stats.linregress` fits to the pooled (angle, value) pairs of the
cell's own zone strictly exceeds `max_dbz_per_degree` — for every conversion
value the masked singleton may take; on zones without masked cells this
slope is exactly the ordinary-least-squares slope of the stored (angle,
value) pairs; and on the spec's 8×8 scenario with zone (0,0) rising 20
dB/degree and threshold 5.0, exactly the cells of zone (0,0) are `True`
across all elevations. -/
theorem C3_detection_marks_zone_iff_slope_exceeds :
    (∀ (masked_as : PyFloat) (grid : GridInfo) (cfg : PrecipConfig) (angles : List Rat)
        (iris : IrisDataM) (r : IrisDataM × (Mask3 × Mask3)),
      0 < cfg.azim_region → 0 < cfg.gate_region →
      filter_precip masked_as grid cfg angles iris precip_filter_3d_init
        precip_filter_3d_init = .ok r →
      ∀ e i j, i < grid.azims → j < grid.gates →
        r.2.1 e i j = PyFloat.gt (determine_zone_slope masked_as angles iris.convol
            cfg.azim_region cfg.gate_region (i / cfg.azim_region) (j / cfg.gate_region))
          cfg.max_dbz_per_degree ∧
        r.2.2 e i j = PyFloat.gt (determine_zone_slope masked_as angles iris.convol
            cfg.azim_region cfg.gate_region (i / cfg.azim_region) (j / cfg.gate_region))
          cfg.max_dbz_per_degree) ∧
    (∀ (masked_as : PyFloat) (grid : GridInfo) (cfg : PrecipConfig) (angles : List Rat)
        (iris : IrisDataM) (r : IrisDataM × (Mask3 × Mask3)),
      0 < cfg.azim_region → 0 < cfg.gate_region →
      filter_precip masked_as grid cfg angles iris precip_filter_3d_init
        precip_filter_3d_init = .ok r →
      ∀ e i j, i < grid.azims → j < grid.gates →
      (∀ x i2 j2, x < angles.length → i2 < cfg.azim_region → j2 < cfg.gate_region →
        iris.convol.mask x ((i / cfg.azim_region) * cfg.azim_region + i2)
          ((j / cfg.gate_region) * cfg.gate_region + j2) = false) →
      ((r.2.1 e i j = true ↔
          data_zone_slope angles iris.convol cfg.azim_region cfg.gate_region
            (i / cfg.azim_region) (j / cfg.gate_region) > cfg.max_dbz_per_degree) ∧
       (r.2.2 e i j = true ↔
          data_zone_slope angles iris.convol cfg.azim_region cfg.gate_region
            (i / cfg.azim_region) (j / cfg.gate_region) > cfg.max_dbz_per_degree))) ∧
    (filter_precip PyFloat.nan scenarioGrid scenarioCfg scenarioAngles scenarioIris
        precip_filter_3d_init precip_filter_3d_init = .ok scenarioResult ∧
      ∀ e, e < 3 → ∀ i, i < 8 → ∀ j, j < 8 →
        scenarioResult.2.1 e i j = decide (i < 4 ∧ j < 4) ∧
        scenarioResult.2.2 e i j = decide (i < 4 ∧ j < 4)) := by
  have hgen : ∀ (masked_as : PyFloat) (grid : GridInfo) (cfg : PrecipConfig)
      (angles : List Rat) (iris : IrisDataM) (r : IrisDataM × (Mask3 × Mask3)),
      0 < cfg.azim_region → 0 < cfg.gate_region →
      filter_precip masked_as grid cfg angles iris precip_filter_3d_init
        precip_filter_3d_init = .ok r →
      ∀ e i j, i < grid.azims → j < grid.gates →
        r.2.1 e i j = PyFloat.gt (determine_zone_slope masked_as angles iris.convol
            cfg.azim_region cfg.gate_region (i / cfg.azim_region) (j / cfg.gate_region))
          cfg.max_dbz_per_degree ∧
        r.2.2 e i j = PyFloat.gt (determine_zone_slope masked_as angles iris.convol
            cfg.azim_region cfg.gate_region (i / cfg.azim_region) (j / cfg.gate_region))
          cfg.max_dbz_per_degree := by
    intro masked_as grid cfg angles iris r har hgr h e i j hi hj
    obtain ⟨p1, p2⟩ := filter_precip_ok_point masked_as grid cfg angles iris
      precip_filter_3d_init precip_filter_3d_init r har hgr h e i j hi hj
    rw [p1, p2]
    simp [precip_filter_3d_init, zone_contaminated]
  refine ⟨hgen, ?_, rfl, by decide⟩
  intro masked_as grid cfg angles iris r har hgr h e i j hi hj hm
  obtain ⟨q1, q2⟩ := hgen masked_as grid cfg angles iris r har hgr h e i j hi hj
  rw [q1, q2, determine_zone_slope_unmasked masked_as angles iris.convol
    cfg.azim_region cfg.gate_region (i / cfg.azim_region) (j / cfg.gate_region) hm]
  simp [PyFloat.gt]

/-- Witness for C3's general part, instantiated at the scenario and the cell
(elevation 0, azimuth 2, gate 3). -/
theorem C3_witness :
    scenarioResult.2.1 0 2 3 = PyFloat.gt (determine_zone_slope PyFloat.nan scenarioAngles
        scenarioIris.convol 4 4 (2 / 4) (3 / 4)) 5 ∧
    scenarioResult.2.2 0 2 3 = PyFloat.gt (determine_zone_slope PyFloat.nan scenarioAngles
        scenarioIris.convol 4 4 (2 / 4) (3 / 4)) 5 :=
  C3_detection_marks_zone_iff_slope_exceeds.1 PyFloat.nan scenarioGrid scenarioCfg
    scenarioAngles scenarioIris scenarioResult (by decide) (by decide) rfl 0 2 3
    (by decide) (by decide)

/-- C6: with region sizes that fail to divide the grid extents evenly, the
detection pass raises before visiting any zone; with region sizes that do
divide, it completes, the zone loop visits exactly
`(azims/azim_region) * (gates/gate_region)` zones, and the produced mask is
constant on each zone's block across all elevations (in both filters). -/
theorem C6_zone_region_divisibility (masked_as : PyFloat) (grid : GridInfo)
    (cfg : PrecipConfig) (angles : List Rat) (iris : IrisDataM)
    (har : 0 < cfg.azim_region) (hgr : 0 < cfg.gate_region) :
    (¬ cfg.azim_region ∣ grid.azims →
      filter_precip masked_as grid cfg angles iris precip_filter_3d_init precip_filter_3d_init =
        .error (.valueError ("Choose value of azim_region that divides " ++
          toString grid.azims ++ " evenly."))) ∧
    (cfg.azim_region ∣ grid.azims → ¬ cfg.gate_region ∣ grid.gates →
      filter_precip masked_as grid cfg angles iris precip_filter_3d_init precip_filter_3d_init =
        .error (.valueError ("Choose value of gate_region that divides " ++
          toString grid.gates ++ " evenly"))) ∧
    (cfg.azim_region ∣ grid.azims → cfg.gate_region ∣ grid.gates →
      ∃ r, filter_precip masked_as grid cfg angles iris precip_filter_3d_init
          precip_filter_3d_init = .ok r ∧
        (zone_list (grid.azims / cfg.azim_region) (grid.gates / cfg.gate_region)).length =
          (grid.azims / cfg.azim_region) * (grid.gates / cfg.gate_region) ∧
        (∀ e e2 i i2 j j2, i < grid.azims → i2 < grid.azims → j < grid.gates →
          j2 < grid.gates → i / cfg.azim_region = i2 / cfg.azim_region →
          j / cfg.gate_region = j2 / cfg.gate_region →
          r.2.1 e i j = r.2.1 e2 i2 j2 ∧ r.2.2 e i j = r.2.2 e2 i2 j2)) := by
  refine ⟨?_, ?_, ?_⟩
  · intro hnd
    have h1 : grid.azims % cfg.azim_region ≠ 0 := fun hz => hnd (Nat.dvd_of_mod_eq_zero hz)
    simp only [filter_precip]
    rw [if_pos h1]
  · intro hda hnd
    obtain ⟨c, hc⟩ := hda
    have h1 : grid.azims % cfg.azim_region = 0 := by rw [hc]; exact Nat.mul_mod_right _ _
    have h2 : grid.gates % cfg.gate_region ≠ 0 := fun hz => hnd (Nat.dvd_of_mod_eq_zero hz)
    simp only [filter_precip]
    rw [if_neg (by simp [h1]), if_pos h2]
  · intro hda hdg
    obtain ⟨c, hc⟩ := hda
    obtain ⟨d, hd⟩ := hdg
    have h1 : grid.azims % cfg.azim_region = 0 := by rw [hc]; exact Nat.mul_mod_right _ _
    have h2 : grid.gates % cfg.gate_region = 0 := by rw [hd]; exact Nat.mul_mod_right _ _
    have hok : filter_precip masked_as grid cfg angles iris precip_filter_3d_init
        precip_filter_3d_init =
        .ok ((zone_list (grid.azims / cfg.azim_region) (grid.gates / cfg.gate_region)).foldl
          (precip_zone_step masked_as cfg angles)
          (iris, (precip_filter_3d_init, precip_filter_3d_init))) := by
      simp only [filter_precip]
      rw [if_neg (by simp [h1]), if_neg (by simp [h2])]
    refine ⟨_, hok, zone_list_length _ _, ?_⟩
    intro e e2 i i2 j j2 hi hi2 hj hj2 hzi hzj
    obtain ⟨p1, p2⟩ := filter_precip_ok_point masked_as grid cfg angles iris
      precip_filter_3d_init precip_filter_3d_init _ har hgr hok e i j hi hj
    obtain ⟨q1, q2⟩ := filter_precip_ok_point masked_as grid cfg angles iris
      precip_filter_3d_init precip_filter_3d_init _ har hgr hok e2 i2 j2 hi2 hj2
    rw [p1, q1, p2, q2, hzi, hzj]
    exact ⟨rfl, rfl⟩

/-- Witness for C6: region size 3 does not divide 8 azimuths, so the
detection pass raises the azim_region error on the scenario volume. -/
theorem C6_witness :
    filter_precip PyFloat.nan ⟨8, 8⟩ ⟨3, 4, 5⟩ scenarioAngles scenarioIris
      precip_filter_3d_init precip_filter_3d_init =
      .error (.valueError "Choose value of azim_region that divides 8 evenly.") :=
  (C6_zone_region_divisibility PyFloat.nan ⟨8, 8⟩ ⟨3, 4, 5⟩ scenarioAngles scenarioIris
    (by decide) (by decide)).1 (by decide)

/-- A small 4×4 configuration for the C5 counterexample: identical DOPVOL
data, two different CONVOL volumes (flat vs rising in zone (0,0)). -/
def c5Grid : GridInfo := ⟨4, 4⟩

def c5Cfg : PrecipConfig := ⟨2, 2, 5⟩

def c5Angles : List Rat := [1/2, 1, 3/2]

def c5Dopvol : MaskedArr3 := ⟨3, 4, 4, fun _ _ _ => 7, fun _ _ _ => false⟩

def c5ConvolFlat : MaskedArr3 := ⟨3, 4, 4, fun _ _ _ => 7, fun _ _ _ => false⟩

def c5ConvolSteep : MaskedArr3 :=
  ⟨3, 4, 4, fun x i j => if i < 2 ∧ j < 2 then 20 * c5Angles.getD x 0 else 7,
    fun _ _ _ => false⟩

def c5IrisA : IrisDataM := ⟨c5ConvolFlat, c5Dopvol⟩

def c5IrisB : IrisDataM := ⟨c5ConvolSteep, c5Dopvol⟩

def c5ResultA : IrisDataM × (Mask3 × Mask3) :=
  (zone_list 2 2).foldl (precip_zone_step PyFloat.nan c5Cfg c5Angles)
    (c5IrisA, (precip_filter_3d_init, precip_filter_3d_init))

def c5ResultB : IrisDataM × (Mask3 × Mask3) :=
  (zone_list 2 2).foldl (precip_zone_step PyFloat.nan c5Cfg c5Angles)
    (c5IrisB, (precip_filter_3d_init, precip_filter_3d_init))

/-- C5 counterexample: two inputs with literally identical DOPVOL volumes but
different CONVOL volumes produce different DOPVOL contamination masks (cell
(0,0,0) False vs True), so the contamination mask applied to the DOPVOL
volume is computed from the CONVOL scan data, not from the DOPVOL scan data
("We will only use CONVOL scans for determining slopes").  Both volumes are
unmasked, so the masked conversion value (fixed to nan here) is irrelevant. -/
theorem C5_counterexample :
    c5IrisA.dopvol = c5IrisB.dopvol ∧
    filter_precip PyFloat.nan c5Grid c5Cfg c5Angles c5IrisA
      precip_filter_3d_init precip_filter_3d_init = .ok c5ResultA ∧
    filter_precip PyFloat.nan c5Grid c5Cfg c5Angles c5IrisB
      precip_filter_3d_init precip_filter_3d_init = .ok c5ResultB ∧
    c5ResultA.2.2 0 0 0 = false ∧
    c5ResultB.2.2 0 0 0 = true :=
  ⟨rfl, rfl, rfl, by decide, by decide⟩

/-- C5 (amended): `process_set` fuses each family's volume with that family's
own clutter mask, but the contamination-zone classification is computed once,
from the CONVOL scan data only, and that same zone mask is applied to both
families; the data layers are untouched. -/
theorem C5_fusion_own_clutter_shared_convol_zones (masked_as : PyFloat)
    (st : IrisProcessorState) (iris : IrisDataM) (out : IrisDataM)
    (har : 0 < st.config.azim_region) (hgr : 0 < st.config.gate_region)
    (h : process_set masked_as st iris = .ok out)
    (i j : Nat) (hi : i < st.grid_info.azims) (hj : j < st.grid_info.gates) (e : Nat) :
    out.dopvol.mask e i j =
      ((astype_bool (st.dopvol_clutter e i j) ||
        zone_contaminated masked_as st.config st.convol_angles iris.convol
          (i / st.config.azim_region, j / st.config.gate_region)) ||
        iris.dopvol.mask e i j) ∧
    out.convol.mask e i j =
      ((astype_bool (st.convol_clutter e i j) ||
        zone_contaminated masked_as st.config st.convol_angles iris.convol
          (i / st.config.azim_region, j / st.config.gate_region)) ||
        iris.convol.mask e i j) ∧
    out.dopvol.data = iris.dopvol.data ∧
    out.convol.data = iris.convol.data := by
  simp only [process_set] at h
  cases hfp : filter_precip masked_as st.grid_info st.config st.convol_angles iris
      precip_filter_3d_init precip_filter_3d_init with
  | error err => rw [hfp] at h; cases h
  | ok r =>
    rw [hfp] at h
    have hr1 : r.1 = iris :=
      filter_precip_fst masked_as st.grid_info st.config st.convol_angles iris _ _ r hfp
    obtain ⟨p1, p2⟩ := filter_precip_ok_point masked_as st.grid_info st.config
      st.convol_angles iris precip_filter_3d_init precip_filter_3d_init r har hgr hfp e i j hi hj
    simp only [impose_filter, MaskedArr3.shape, ne_eq] at h
    rw [if_neg (by simp)] at h
    rw [if_neg (by simp)] at h
    cases h
    rw [hr1]
    simp only [mask_or]
    rw [p1, p2]
    simp [precip_filter_3d_init]

/-- A concrete processor state for the C5 witness. -/
def c5ProcState : IrisProcessorState :=
  ⟨c5Grid, c5Cfg, c5Angles, c5Angles, fun _ _ _ => 0, fun _ _ _ => 1⟩

/-- The iris data left by `process_set` on the C5 witness input. -/
def c5Out : IrisDataM :=
  ((process_set PyFloat.nan c5ProcState c5IrisB).toOption).getD c5IrisB

/-- Witness for the amended C5 theorem at a concrete processor state. -/
theorem C5_witness :
    c5Out.dopvol.mask 0 0 0 =
      ((astype_bool (c5ProcState.dopvol_clutter 0 0 0) ||
        zone_contaminated PyFloat.nan c5ProcState.config c5ProcState.convol_angles
          c5IrisB.convol
          (0 / c5ProcState.config.azim_region, 0 / c5ProcState.config.gate_region)) ||
        c5IrisB.dopvol.mask 0 0 0) ∧
    c5Out.convol.mask 0 0 0 =
      ((astype_bool (c5ProcState.convol_clutter 0 0 0) ||
        zone_contaminated PyFloat.nan c5ProcState.config c5ProcState.convol_angles
          c5IrisB.convol
          (0 / c5ProcState.config.azim_region, 0 / c5ProcState.config.gate_region)) ||
        c5IrisB.convol.mask 0 0 0) ∧
    c5Out.dopvol.data = c5IrisB.dopvol.data ∧
    c5Out.convol.data = c5IrisB.convol.data :=
  C5_fusion_own_clutter_shared_convol_zones PyFloat.nan c5ProcState c5IrisB c5Out
    (by decide) (by decide) rfl 0 0 (by decide) (by decide) 0

/-- A CONVOL volume rising 20 dB/degree in zone (0,0) but with one masked
cell in that zone. -/
def maskedDemoConvol : MaskedArr3 :=
  ⟨3, 4, 4, fun x i j => if i < 2 ∧ j < 2 then 20 * c5Angles.getD x 0 else 7,
    fun x i j => decide (x = 0 ∧ i = 0 ∧ j = 0)⟩

/-- The mask layer really feeds the regression: under the nan conversion a
single masked cell makes the zone's fitted slope nan, so the zone is not
marked even though the stored (angle, value) pairs have slope well above the
threshold. -/
theorem masked_cell_blocks_detection_under_nan :
    determine_zone_slope PyFloat.nan c5Angles maskedDemoConvol 2 2 0 0 = PyFloat.nan ∧
    zone_contaminated PyFloat.nan c5Cfg c5Angles maskedDemoConvol (0, 0) = false ∧
    data_zone_slope c5Angles maskedDemoConvol 2 2 0 0 > 5 := by decide

/-- Inversion of a successful `BaseOutput.validate`: all stored fields are
present and dimensionally consistent. -/
theorem base_validate_ok_checks (st : BaseOutputState)
    (hok : BaseOutput.validate st = .ok ()) :
    ∃ f u jp, st.dbz_filtered = some f ∧ st.dbz_unfiltered = some u ∧
      st.joint_product = some jp ∧ f.shape = u.shape ∧ 3 ≤ f.shape.length ∧
      f.shape.getD 1 0 = st.grid_info.azims ∧ f.shape.getD 2 0 = st.grid_info.gates ∧
      jp.shape.length = 2 ∧ jp.shape.getD 0 0 = st.grid_info.azims ∧
      jp.shape.getD 1 0 = st.grid_info.gates := by
  simp only [BaseOutput.validate] at hok
  split at hok
  · cases hok
  next f hf =>
    split at hok
    · cases hok
    next u hu =>
      split at hok
      · cases hok
      next hsh =>
        split at hok
        · cases hok
        next hlen =>
          split at hok
          · cases hok
          next hA =>
            split at hok
            · cases hok
            next hG =>
              split at hok
              · cases hok
              next jp hjp =>
                split at hok
                · cases hok
                next hl2 =>
                  split at hok
                  · cases hok
                  next hdims =>
                    push_neg at hsh hA hG hl2 hdims
                    exact ⟨f, u, jp, hf, hu, hjp, hsh, by omega, hA, hG, hl2,
                      hdims.1.symm, hdims.2.symm⟩

/-- Classification of `BaseOutput.validate` failures: when the filtered
volume (if present) is 3-D, every failure is a `ValueError`. -/
theorem base_validate_error_classify (st : BaseOutputState)
    (h3f : ∀ f, st.dbz_filtered = some f → f.shape.length = 3)
    (e : PyErr) (he : BaseOutput.validate st = .error e) :
    ∃ m, e = .valueError m := by
  simp only [BaseOutput.validate] at he
  split at he
  · cases he; exact ⟨_, rfl⟩
  next f hf =>
    split at he
    · cases he; exact ⟨_, rfl⟩
    next u hu =>
      split at he
      · cases he; exact ⟨_, rfl⟩
      next hsh =>
        split at he
        · next hlen => exact absurd (h3f f hf) (by omega)
        next hlen =>
          split at he
          · cases he; exact ⟨_, rfl⟩
          next hA =>
            split at he
            · cases he; exact ⟨_, rfl⟩
            next hG =>
              split at he
              · cases he; exact ⟨_, rfl⟩
              next jp hjp =>
                split at he
                · cases he; exact ⟨_, rfl⟩
                next hl2 =>
                  split at he
                  · cases he; exact ⟨_, rfl⟩
                  next hdims => cases he

/-- The inputs at which C2 requires `create` to raise a validation error:
filtered or unfiltered volume absent, their shapes differing, their
azimuth/gate extents disagreeing with the grid, joint product absent, not
2-D, or disagreeing with the grid, or (Iris-specific) the auxiliary volumes
not mutually shape-equal. -/
def c2_invalid_input (st : IrisOutputState) : Prop :=
  st.base.dbz_filtered = none ∨
  st.base.dbz_unfiltered = none ∨
  (∃ f u, st.base.dbz_filtered = some f ∧ st.base.dbz_unfiltered = some u ∧
    f.shape ≠ u.shape) ∨
  (∃ f, st.base.dbz_filtered = some f ∧
    (f.shape.getD 1 0 ≠ st.base.grid_info.azims ∨
     f.shape.getD 2 0 ≠ st.base.grid_info.gates)) ∨
  st.base.joint_product = none ∨
  (∃ jp, st.base.joint_product = some jp ∧ jp.shape.length ≠ 2) ∨
  (∃ jp, st.base.joint_product = some jp ∧
    (jp.shape.getD 0 0 ≠ st.base.grid_info.azims ∨
     jp.shape.getD 1 0 ≠ st.base.grid_info.gates)) ∨
  (∃ v s p, st.velocity = some v ∧ st.spectrum_width = some s ∧
    st.total_power = some p ∧ (v.shape ≠ s.shape ∨ v.shape ≠ p.shape))

/-- On every C2-invalid input (with 3-D dbz volumes, as the data model
requires), `IrisOutput.validate` raises a `ValueError`. -/
theorem c2_bad_validate (st : IrisOutputState)
    (h3f : ∀ f, st.base.dbz_filtered = some f → f.shape.length = 3)
    (hbad : c2_invalid_input st) :
    ∃ msg, IrisOutput.validate st = .error (.valueError msg) := by
  cases hb : BaseOutput.validate st.base with
  | error e =>
    obtain ⟨m, rfl⟩ := base_validate_error_classify st.base h3f e hb
    refine ⟨m, ?_⟩
    simp only [IrisOutput.validate, hb]
  | ok u =>
    cases u
    obtain ⟨f, u, jp, hf, hu, hjp, hsh, hlen, hA, hG, hl2, hj0, hj1⟩ :=
      base_validate_ok_checks st.base hb
    rcases hbad with h | h | h | h | h | h | h | h
    · rw [hf] at h; cases h
    · rw [hu] at h; cases h
    · obtain ⟨f2, u2, hf2, hu2, hne⟩ := h
      rw [hf] at hf2
      rw [hu] at hu2
      cases hf2
      cases hu2
      exact absurd hsh hne
    · obtain ⟨f2, hf2, hor⟩ := h
      rw [hf] at hf2
      cases hf2
      rcases hor with h2 | h2
      · exact absurd hA h2
      · exact absurd hG h2
    · rw [hjp] at h; cases h
    · obtain ⟨jp2, hjp2, hne⟩ := h
      rw [hjp] at hjp2
      cases hjp2
      exact absurd hl2 hne
    · obtain ⟨jp2, hjp2, hor⟩ := h
      rw [hjp] at hjp2
      cases hjp2
      rcases hor with h2 | h2
      · exact absurd hj0 h2
      · exact absurd hj1 h2
    · obtain ⟨v, s, p, hv, hs, hp, hor⟩ := h
      by_cases hvs : v.shape = s.shape
      · have hvp : v.shape ≠ p.shape := by
          rcases hor with h2 | h2
          · exact absurd hvs h2
          · exact h2
        refine ⟨"Incompatible shapes " ++ pyTupleStr v.shape ++ " != " ++ pyTupleStr s.shape, ?_⟩
        simp only [IrisOutput.validate, hb, hv, hs, hp]
        rw [if_neg (by simp [hvs]), if_pos hvp]
      · refine ⟨"Incompatible shapes " ++ pyTupleStr v.shape ++ " != " ++ pyTupleStr s.shape, ?_⟩
        simp only [IrisOutput.validate, hb, hv, hs, hp]
        rw [if_pos hvs]

/-- C2: on every invalid input (any of the listed validation defects, with
3-D dbz volumes as the data model requires), the Iris writer's `write`
raises a `ValueError` during `self.validate()`, before `nc.Dataset(filename,
mode="w")` runs, and afterwards no file exists at the target path. -/
theorem C2_create_validation_failure_leaves_no_file (st : IrisOutputState)
    (h3f : ∀ f, st.base.dbz_filtered = some f → f.shape.length = 3)
    (hbad : c2_invalid_input st) :
    (∃ msg, (IrisOutput.write st).error = some (.valueError msg)) ∧
    (IrisOutput.write st).fileAfter = none := by
  obtain ⟨msg, hv⟩ := c2_bad_validate st h3f hbad
  unfold IrisOutput.write
  rw [hv]
  exact ⟨⟨msg, rfl⟩, rfl⟩

/-- An Iris writer state with both dbz volumes absent. -/
def c2BadState : IrisOutputState :=
  { base := { sampleBase with dbz_filtered := none, dbz_unfiltered := none }
    dop_elevs := []
    velocity := none
    spectrum_width := none
    total_power := none }

/-- Witness for C2: with `dbz_filtered` absent, `write` raises a ValueError
and creates no file. -/
theorem C2_witness :
    (∃ msg, (IrisOutput.write c2BadState).error = some (.valueError msg)) ∧
    (IrisOutput.write c2BadState).fileAfter = none :=
  C2_create_validation_failure_leaves_no_file c2BadState
    (fun _ h => nomatch h) (Or.inl rfl)
